import Mathlib

/-!
Shallow embedding of the Alpaca MCP trading server (`alpaca_mcp_server.py`).

The server exposes nine operations.  Each operation body runs inside a
`try ... except` block: it constructs a fresh, credential-scoped client
handle from the call's own arguments, performs exactly one backend call,
renders the result into a fixed text block, and converts any raised
failure into a single `"Error <description>: <message>"` string.

The embedding models the external Alpaca SDK as an `Env` of fallible
behaviors (handle construction and backend calls return `Except Err _`).
Every operation returns its output string paired with the ordered list of
SDK calls it performed (`List Call`), which makes "no backend call is
performed" and "the request passed to the backend" provable facts.
Numeric values are modelled as exact rationals; Python's `f"{x:.2f}"`
formatting is modelled by `formatFixed2` (round half to even, exactly two
fraction digits).
-/

abbrev Err := String

/-- ASCII digit character for `n < 10`. -/
def digitChar (n : Nat) : Char := Char.ofNat (48 + n)

/-- Model of Python's `f"{x:.2f}"`: round `100 * q` half-to-even to an
integer number of cents and print it with exactly two fraction digits.
Implemented directly on the numerator/denominator so that it evaluates
by kernel reduction. -/
def formatFixed2 (q : ℚ) : String :=
  let N : ℤ := 100 * q.num
  let d : ℤ := (q.den : ℤ)
  let f : ℤ := N.fdiv d
  let r : ℤ := N - f * d
  let n : ℤ := if 2 * r < d then f else if d < 2 * r then f + 1
               else if f % 2 = 0 then f else f + 1
  let m : Nat := n.natAbs
  (if n < 0 then "-" else "") ++ toString (m / 100) ++
    String.mk ('.' :: digitChar (m % 100 / 10) :: [digitChar (m % 100 % 10)])

/-- The characters after the last `'.'` of a string (its fraction digits). -/
def fracAfterLastDot (s : String) : List Char :=
  s.data.reverse.takeWhile (fun c => c != '.')

/-- Model of Python's `str.lower()` (ASCII lowering). -/
def pyLower (s : String) : String := String.mk (s.data.map Char.toLower)

/-- Model of Python's `str.capitalize()`: first character upper-cased,
all remaining characters lower-cased. -/
def pyCapitalize (s : String) : String :=
  match s.data with
  | [] => ""
  | c :: cs => String.mk (c.toUpper :: cs.map Char.toLower)

/-- `t` occurs as a contiguous substring of `s`. -/
def ContainsStr (s t : String) : Prop := ∃ a b : String, s = a ++ t ++ b

/-! ## Domain entities (transient views of backend data) -/

structure Account where
  id : String
  status : String
  currency : String
  buying_power : ℚ
  cash : ℚ
  portfolio_value : ℚ
  equity : ℚ
  long_market_value : ℚ
  short_market_value : ℚ
  pattern_day_trader : Bool
  /-- `none` models an account object with no `daytrade_count` attribute
  (the `hasattr` check in the source). -/
  daytrade_count : Option ℤ
deriving DecidableEq

structure Position where
  symbol : String
  qty : String
  market_value : ℚ
  avg_entry_price : ℚ
  current_price : ℚ
  unrealized_pl : ℚ
  unrealized_plpc : ℚ
deriving DecidableEq

structure Quote where
  ask_price : ℚ
  bid_price : ℚ
  ask_size : ℤ
  bid_size : ℤ
  timestamp : String
deriving DecidableEq

structure Timestamp where
  date : String
deriving DecidableEq

structure Bar where
  timestamp : Timestamp
  «open» : ℚ
  high : ℚ
  low : ℚ
  close : ℚ
  volume : ℤ
deriving DecidableEq

structure Order where
  id : String
  symbol : String
  type : String
  side : String
  qty : String
  status : String
  submitted_at : String
  time_in_force : String
  /-- `none` models a missing or falsy `filled_at` attribute. -/
  filled_at : Option String
  /-- `none` models a missing or falsy `filled_avg_price` attribute. -/
  filled_avg_price : Option ℚ
  /-- `none` models `limit_price = None`; `float(None)` raises. -/
  limit_price : Option ℚ
deriving DecidableEq

/-! ## SDK enums and request objects -/

inductive OrderSide where
  | BUY
  | SELL
deriving DecidableEq

inductive TimeInForce where
  | DAY
deriving DecidableEq

inductive QueryOrderStatus where
  | OPEN
  | CLOSED
  | ALL
deriving DecidableEq

inductive TimeFrame where
  | Day
deriving DecidableEq

structure MarketOrderRequest where
  symbol : String
  qty : ℚ
  side : OrderSide
  time_in_force : TimeInForce
deriving DecidableEq

structure LimitOrderRequest where
  symbol : String
  qty : ℚ
  side : OrderSide
  time_in_force : TimeInForce
  limit_price : ℚ
deriving DecidableEq

inductive OrderRequest where
  | market (r : MarketOrderRequest)
  | limit (r : LimitOrderRequest)
deriving DecidableEq

structure GetOrdersRequest where
  status : QueryOrderStatus
  limit : ℤ
deriving DecidableEq

structure StockLatestQuoteRequest where
  symbol_or_symbols : String
deriving DecidableEq

structure StockBarsRequest where
  symbol_or_symbols : String
  timeframe : TimeFrame
  start : ℚ
  /-- The source never sets `end`; the SDK default (`None`) means "up to now". -/
  «end» : Option ℚ := none
deriving DecidableEq

/-! ## Backend capability handles and the environment -/

/-- A credential-scoped trading handle: each method is one backend action,
which either returns a domain value or raises (`Except.error`). -/
structure TradingHandle where
  get_account : Except Err Account
  get_all_positions : Except Err (List Position)
  get_orders : GetOrdersRequest → Except Err (List Order)
  submit_order : OrderRequest → Except Err Order
  cancel_orders : Except Err String
  close_all_positions : Bool → Except Err Unit

/-- A credential-scoped market-data handle. -/
structure DataHandle where
  get_stock_latest_quote : StockLatestQuoteRequest → Except Err (List (String × Quote))
  get_stock_bars : StockBarsRequest → Except Err (List (String × List Bar))

/-- The external world: constructing a handle from credentials may itself
fail (raise), exactly like `TradingClient(...)` in the source; `now` is
the value of `datetime.now()` measured in days. -/
structure Env where
  TradingClient : String → String → Bool → Except Err TradingHandle
  StockHistoricalDataClient : String → String → Except Err DataHandle
  now : ℚ

/-- The process-wide client handles built at startup (source lines 42-43)
from the environment-variable credentials.  No operation reads them. -/
structure Globals where
  trading_client : Except Err TradingHandle
  stock_client : Except Err DataHandle

/-- Startup construction of the process-wide handles from the default
credentials loaded from the process environment (source lines 31-47). -/
def startupGlobals (env : Env) (API_KEY API_SECRET : String) (PAPER : Bool) : Globals :=
  { trading_client := env.TradingClient API_KEY API_SECRET PAPER
    stock_client := env.StockHistoricalDataClient API_KEY API_SECRET }

/-- One SDK interaction, recorded in the order performed. -/
inductive Call where
  | constructTrading (api_key api_secret : String) (paper : Bool)
  | constructData (api_key api_secret : String)
  | getAccount
  | getAllPositions
  | getStockLatestQuote (req : StockLatestQuoteRequest)
  | getStockBars (req : StockBarsRequest)
  | getOrdersCall (req : GetOrdersRequest)
  | submitOrder (req : OrderRequest)
  | cancelOrders
  | closeAllPositions (cancel_orders : Bool)
deriving DecidableEq

/-! ## Response formatters (one per entity, fixed field order) -/

/-- The `Day Trades Remaining` field: the count when the attribute is
present, the literal `Unknown` otherwise (source line 77). -/
def dayTradesField (account : Account) : String :=
  match account.daytrade_count with
  | some n => toString n
  | none => "Unknown"

/-- The account block of `get_account_info` (source lines 64-78). -/
def renderAccountInfo (account : Account) : String :=
  "\nAccount Information:\n-------------------\nAccount ID: " ++ account.id ++
  "\nStatus: " ++ account.status ++
  "\nCurrency: " ++ account.currency ++
  "\nBuying Power: $" ++ formatFixed2 account.buying_power ++
  "\nCash: $" ++ formatFixed2 account.cash ++
  "\nPortfolio Value: $" ++ formatFixed2 account.portfolio_value ++
  "\nEquity: $" ++ formatFixed2 account.equity ++
  "\nLong Market Value: $" ++ formatFixed2 account.long_market_value ++
  "\nShort Market Value: $" ++ formatFixed2 account.short_market_value ++
  "\nPattern Day Trader: " ++ (if account.pattern_day_trader then "Yes" else "No") ++
  "\nDay Trades Remaining: " ++ dayTradesField account ++ "\n"

/-- One position block of `get_positions` (source lines 102-110). -/
def renderPosition (position : Position) : String :=
  "\nSymbol: " ++ position.symbol ++
  "\nQuantity: " ++ position.qty ++ " shares" ++
  "\nMarket Value: $" ++ formatFixed2 position.market_value ++
  "\nAverage Entry Price: $" ++ formatFixed2 position.avg_entry_price ++
  "\nCurrent Price: $" ++ formatFixed2 position.current_price ++
  "\nUnrealized P/L: $" ++ formatFixed2 position.unrealized_pl ++
  " (" ++ formatFixed2 (position.unrealized_plpc * 100) ++ "%)" ++
  "\n-------------------\n"

/-- The quote block of `get_stock_quote` (source lines 133-141). -/
def renderQuoteBlock (symbol : String) (quote : Quote) : String :=
  "\nLatest Quote for " ++ symbol ++ ":\n------------------------" ++
  "\nAsk Price: $" ++ formatFixed2 quote.ask_price ++
  "\nBid Price: $" ++ formatFixed2 quote.bid_price ++
  "\nAsk Size: " ++ toString quote.ask_size ++
  "\nBid Size: " ++ toString quote.bid_size ++
  "\nTimestamp: " ++ quote.timestamp ++ "\n"

/-- One bar line of `get_stock_bars` (source line 175). -/
def renderBarLine (bar : Bar) : String :=
  "Date: " ++ bar.timestamp.date ++
  ", Open: $" ++ formatFixed2 bar.«open» ++
  ", High: $" ++ formatFixed2 bar.high ++
  ", Low: $" ++ formatFixed2 bar.low ++
  ", Close: $" ++ formatFixed2 bar.close ++
  ", Volume: " ++ toString bar.volume ++ "\n"

/-- The header of the bar list (source lines 171-172). -/
def barsHeader (symbol : String) (days : ℤ) : String :=
  "Historical Data for " ++ symbol ++ " (Last " ++ toString days ++
  " trading days):\n---------------------------------------------------\n"

/-- One order block of `get_orders` (source lines 220-235). -/
def renderOrderBlock (order : Order) : String :=
  "\nSymbol: " ++ order.symbol ++
  "\nID: " ++ order.id ++
  "\nType: " ++ order.type ++
  "\nSide: " ++ order.side ++
  "\nQuantity: " ++ order.qty ++
  "\nStatus: " ++ order.status ++
  "\nSubmitted At: " ++ order.submitted_at ++ "\n" ++
  (match order.filled_at with
   | some t => "Filled At: " ++ t ++ "\n"
   | none => "") ++
  (match order.filled_avg_price with
   | some p => "Filled Price: $" ++ formatFixed2 p ++ "\n"
   | none => "") ++
  "-----------------------------------\n"

/-- The header of the order list (source lines 216-217). -/
def ordersHeader (status : String) (count : Nat) : String :=
  pyCapitalize status ++ " Orders (Last " ++ toString count ++
  "):\n-----------------------------------\n"

/-- The confirmation block of `place_market_order` (source lines 273-283). -/
def renderMarketOrderBlock (order : Order) : String :=
  "\nMarket Order Placed Successfully:\n--------------------------------" ++
  "\nOrder ID: " ++ order.id ++
  "\nSymbol: " ++ order.symbol ++
  "\nSide: " ++ order.side ++
  "\nQuantity: " ++ order.qty ++
  "\nType: " ++ order.type ++
  "\nTime In Force: " ++ order.time_in_force ++
  "\nStatus: " ++ order.status ++ "\n"

/-- The confirmation block of `place_limit_order` (source lines 321-332).
`float(order.limit_price)` raises when the backend returned no limit
price, so this rendering step is fallible. -/
def renderLimitOrderBlock (order : Order) : Except Err String :=
  match order.limit_price with
  | none => .error "float() argument must be a string or a real number, not 'NoneType'"
  | some p => .ok
    ("\nLimit Order Placed Successfully:\n-------------------------------" ++
     "\nOrder ID: " ++ order.id ++
     "\nSymbol: " ++ order.symbol ++
     "\nSide: " ++ order.side ++
     "\nQuantity: " ++ order.qty ++
     "\nType: " ++ order.type ++
     "\nLimit Price: $" ++ formatFixed2 p ++
     "\nTime In Force: " ++ order.time_in_force ++
     "\nStatus: " ++ order.status ++ "\n")

/-! ## The nine operations

Each operation takes the process-wide `Globals` (which it never reads),
the external `Env`, and its own arguments, and returns the output string
paired with the ordered list of SDK calls it performed. -/

/-- `get_account_info` (source lines 50-81). -/
def get_account_info (g : Globals) (env : Env) (api_key api_secret : String)
    (paper : Bool := true) : String × List Call :=
  match env.TradingClient api_key api_secret paper with
  | .error e => ("Error getting account info: " ++ e,
      [Call.constructTrading api_key api_secret paper])
  | .ok trading_client =>
    match trading_client.get_account with
    | .error e => ("Error getting account info: " ++ e,
        [Call.constructTrading api_key api_secret paper, Call.getAccount])
    | .ok account => (renderAccountInfo account,
        [Call.constructTrading api_key api_secret paper, Call.getAccount])

/-- `get_positions` (source lines 83-113). -/
def get_positions (g : Globals) (env : Env) (api_key api_secret : String)
    (paper : Bool := true) : String × List Call :=
  match env.TradingClient api_key api_secret paper with
  | .error e => ("Error getting positions: " ++ e,
      [Call.constructTrading api_key api_secret paper])
  | .ok trading_client =>
    match trading_client.get_all_positions with
    | .error e => ("Error getting positions: " ++ e,
        [Call.constructTrading api_key api_secret paper, Call.getAllPositions])
    | .ok positions =>
      if positions.isEmpty then
        ("No open positions found.",
         [Call.constructTrading api_key api_secret paper, Call.getAllPositions])
      else
        (positions.foldl (fun acc p => acc ++ renderPosition p)
           "Current Positions:\n-------------------\n",
         [Call.constructTrading api_key api_secret paper, Call.getAllPositions])

/-- `get_stock_quote` (source lines 116-145). -/
def get_stock_quote (g : Globals) (env : Env) (symbol api_key api_secret : String) :
    String × List Call :=
  match env.StockHistoricalDataClient api_key api_secret with
  | .error e => ("Error fetching quote for " ++ symbol ++ ": " ++ e,
      [Call.constructData api_key api_secret])
  | .ok stock_client =>
    let request_params : StockLatestQuoteRequest := { symbol_or_symbols := symbol }
    match stock_client.get_stock_latest_quote request_params with
    | .error e => ("Error fetching quote for " ++ symbol ++ ": " ++ e,
        [Call.constructData api_key api_secret, Call.getStockLatestQuote request_params])
    | .ok quotes =>
      match quotes.lookup symbol with
      | some quote => (renderQuoteBlock symbol quote,
          [Call.constructData api_key api_secret, Call.getStockLatestQuote request_params])
      | none => ("No quote data found for " ++ symbol ++ ".",
          [Call.constructData api_key api_secret, Call.getStockLatestQuote request_params])

/-- `get_stock_bars` (source lines 147-181). -/
def get_stock_bars (g : Globals) (env : Env) (symbol api_key api_secret : String)
    (days : ℤ := 5) : String × List Call :=
  match env.StockHistoricalDataClient api_key api_secret with
  | .error e => ("Error fetching historical data for " ++ symbol ++ ": " ++ e,
      [Call.constructData api_key api_secret])
  | .ok stock_client =>
    let start_time : ℚ := env.now - (days : ℚ)
    let request_params : StockBarsRequest :=
      { symbol_or_symbols := symbol, timeframe := TimeFrame.Day, start := start_time }
    match stock_client.get_stock_bars request_params with
    | .error e => ("Error fetching historical data for " ++ symbol ++ ": " ++ e,
        [Call.constructData api_key api_secret, Call.getStockBars request_params])
    | .ok bars =>
      match bars.lookup symbol with
      | some (b :: bs) =>
        ((b :: bs).foldl (fun acc bar => acc ++ renderBarLine bar)
           (barsHeader symbol days),
         [Call.constructData api_key api_secret, Call.getStockBars request_params])
      | _ => ("No historical data found for " ++ symbol ++ " in the last " ++
            toString days ++ " days.",
          [Call.constructData api_key api_secret, Call.getStockBars request_params])

/-- `get_orders` (source lines 184-239). -/
def get_orders (g : Globals) (env : Env) (api_key api_secret : String)
    (paper : Bool := true) (status : String := "all") (limit : ℤ := 10) :
    String × List Call :=
  match env.TradingClient api_key api_secret paper with
  | .error e => ("Error fetching orders: " ++ e,
      [Call.constructTrading api_key api_secret paper])
  | .ok trading_client =>
    let query_status : QueryOrderStatus :=
      if pyLower status = "open" then QueryOrderStatus.OPEN
      else if pyLower status = "closed" then QueryOrderStatus.CLOSED
      else QueryOrderStatus.ALL
    let request_params : GetOrdersRequest := { status := query_status, limit := limit }
    match trading_client.get_orders request_params with
    | .error e => ("Error fetching orders: " ++ e,
        [Call.constructTrading api_key api_secret paper, Call.getOrdersCall request_params])
    | .ok orders =>
      if orders.isEmpty then
        ("No " ++ status ++ " orders found.",
         [Call.constructTrading api_key api_secret paper, Call.getOrdersCall request_params])
      else
        (orders.foldl (fun acc o => acc ++ renderOrderBlock o)
           (ordersHeader status orders.length),
         [Call.constructTrading api_key api_secret paper, Call.getOrdersCall request_params])

/-- `place_market_order` (source lines 241-285). -/
def place_market_order (g : Globals) (env : Env) (symbol side : String) (quantity : ℚ)
    (api_key api_secret : String) (paper : Bool := true) : String × List Call :=
  match env.TradingClient api_key api_secret paper with
  | .error e => ("Error placing market order: " ++ e,
      [Call.constructTrading api_key api_secret paper])
  | .ok trading_client =>
    match (if pyLower side = "buy" then some OrderSide.BUY
           else if pyLower side = "sell" then some OrderSide.SELL
           else none) with
    | none => ("Invalid order side: " ++ side ++ ". Must be 'buy' or 'sell'.",
        [Call.constructTrading api_key api_secret paper])
    | some order_side =>
      let order_data : OrderRequest := OrderRequest.market
        { symbol := symbol, qty := quantity, side := order_side,
          time_in_force := TimeInForce.DAY }
      match trading_client.submit_order order_data with
      | .error e => ("Error placing market order: " ++ e,
          [Call.constructTrading api_key api_secret paper, Call.submitOrder order_data])
      | .ok order => (renderMarketOrderBlock order,
          [Call.constructTrading api_key api_secret paper, Call.submitOrder order_data])

/-- `place_limit_order` (source lines 287-334). -/
def place_limit_order (g : Globals) (env : Env) (symbol side : String)
    (quantity limit_price : ℚ) (api_key api_secret : String) (paper : Bool := true) :
    String × List Call :=
  match env.TradingClient api_key api_secret paper with
  | .error e => ("Error placing limit order: " ++ e,
      [Call.constructTrading api_key api_secret paper])
  | .ok trading_client =>
    match (if pyLower side = "buy" then some OrderSide.BUY
           else if pyLower side = "sell" then some OrderSide.SELL
           else none) with
    | none => ("Invalid order side: " ++ side ++ ". Must be 'buy' or 'sell'.",
        [Call.constructTrading api_key api_secret paper])
    | some order_side =>
      let order_data : OrderRequest := OrderRequest.limit
        { symbol := symbol, qty := quantity, side := order_side,
          time_in_force := TimeInForce.DAY, limit_price := limit_price }
      match trading_client.submit_order order_data with
      | .error e => ("Error placing limit order: " ++ e,
          [Call.constructTrading api_key api_secret paper, Call.submitOrder order_data])
      | .ok order =>
        match renderLimitOrderBlock order with
        | .error e => ("Error placing limit order: " ++ e,
            [Call.constructTrading api_key api_secret paper, Call.submitOrder order_data])
        | .ok res => (res,
            [Call.constructTrading api_key api_secret paper, Call.submitOrder order_data])

/-- `cancel_all_orders` (source lines 336-351). -/
def cancel_all_orders (g : Globals) (env : Env) (api_key api_secret : String)
    (paper : Bool := true) : String × List Call :=
  match env.TradingClient api_key api_secret paper with
  | .error e => ("Error canceling orders: " ++ e,
      [Call.constructTrading api_key api_secret paper])
  | .ok trading_client =>
    match trading_client.cancel_orders with
    | .error e => ("Error canceling orders: " ++ e,
        [Call.constructTrading api_key api_secret paper, Call.cancelOrders])
    | .ok cancel_statuses =>
      ("Successfully canceled all open orders. Status: " ++ cancel_statuses,
       [Call.constructTrading api_key api_secret paper, Call.cancelOrders])

/-- `close_all_positions` (source lines 353-370). -/
def close_all_positions (g : Globals) (env : Env) (api_key api_secret : String)
    (paper : Bool := true) (cancel_orders : Bool := true) : String × List Call :=
  match env.TradingClient api_key api_secret paper with
  | .error e => ("Error closing positions: " ++ e,
      [Call.constructTrading api_key api_secret paper])
  | .ok trading_client =>
    match trading_client.close_all_positions cancel_orders with
    | .error e => ("Error closing positions: " ++ e,
        [Call.constructTrading api_key api_secret paper,
         Call.closeAllPositions cancel_orders])
    | .ok _ =>
      ("Successfully closed all positions.",
       [Call.constructTrading api_key api_secret paper,
        Call.closeAllPositions cancel_orders])

/-! ## Concrete environments used to evaluate the operations -/

/-- Process-wide globals whose handles are never used by any operation. -/
def g0 : Globals := { trading_client := .error "unused", stock_client := .error "unused" }

/-- A trading handle every method of which raises. -/
def tcStub : TradingHandle :=
  { get_account := .error "stub"
    get_all_positions := .error "stub"
    get_orders := fun _ => .error "stub"
    submit_order := fun _ => .error "stub"
    cancel_orders := .error "stub"
    close_all_positions := fun _ => .error "stub" }

/-- A data handle every method of which raises. -/
def dhStub : DataHandle :=
  { get_stock_latest_quote := fun _ => .error "stub"
    get_stock_bars := fun _ => .error "stub" }

/-- A world in which both handle constructors raise. -/
def envFail : Env :=
  { TradingClient := fun _ _ _ => .error "boom"
    StockHistoricalDataClient := fun _ _ => .error "boom"
    now := 0 }

/-- A world in which constructing a handle fails the way the real SDK
fails on empty credentials. -/
def envNoAuth : Env :=
  { TradingClient := fun _ _ _ => .error "You must supply a method of authentication"
    StockHistoricalDataClient := fun _ _ => .error "You must supply a method of authentication"
    now := 0 }

/-- A concrete account; `cash` is 12.3456 dollars. -/
def acct100 : Account :=
  { id := "acct-1", status := "ACTIVE", currency := "USD"
    buying_power := 100, cash := mkRat 123456 10000
    portfolio_value := mkRat 100005 1000, equity := 0
    long_market_value := 0, short_market_value := 0
    pattern_day_trader := false, daytrade_count := some 3 }

/-- The same account with no `daytrade_count` attribute. -/
def acctNoDtc : Account := { acct100 with daytrade_count := none }

/-- A world whose trading backend returns `acct100`. -/
def envAcct : Env :=
  { TradingClient := fun _ _ _ => .ok { tcStub with get_account := .ok acct100 }
    StockHistoricalDataClient := fun _ _ => .ok dhStub
    now := 0 }

/-- A world whose trading backend returns `acctNoDtc`. -/
def envAcctNoDtc : Env :=
  { TradingClient := fun _ _ _ => .ok { tcStub with get_account := .ok acctNoDtc }
    StockHistoricalDataClient := fun _ _ => .ok dhStub
    now := 0 }

/-- A world whose trading backend has no open positions. -/
def envPosEmpty : Env :=
  { TradingClient := fun _ _ _ => .ok { tcStub with get_all_positions := .ok [] }
    StockHistoricalDataClient := fun _ _ => .ok dhStub
    now := 0 }

/-- A world whose order listing raises a rate-limit error. -/
def envOrdersErr : Env :=
  { TradingClient := fun _ _ _ => .ok { tcStub with get_orders := fun _ => .error "rate limit" }
    StockHistoricalDataClient := fun _ _ => .ok dhStub
    now := 0 }

/-- A concrete order as returned by the backend after a submission. -/
def order0 : Order :=
  { id := "oid-1", symbol := "AAPL", type := "market", side := "OrderSide.BUY"
    qty := "1", status := "accepted", submitted_at := "2026-10-10T14:00:00Z"
    time_in_force := "TimeInForce.DAY", filled_at := none, filled_avg_price := none
    limit_price := some (mkRat 1055 100) }

/-- The same order with no limit price (`limit_price = None`). -/
def orderNoLimit : Order := { order0 with limit_price := none }

/-- A world whose order submission succeeds and returns `order0`. -/
def envSubmitOk : Env :=
  { TradingClient := fun _ _ _ => .ok { tcStub with submit_order := fun _ => .ok order0 }
    StockHistoricalDataClient := fun _ _ => .ok dhStub
    now := 0 }

/-- A world whose order submission returns an order with no limit price,
so that rendering the limit-order confirmation raises. -/
def envLimitNone : Env :=
  { TradingClient := fun _ _ _ => .ok { tcStub with submit_order := fun _ => .ok orderNoLimit }
    StockHistoricalDataClient := fun _ _ => .ok dhStub
    now := 0 }

/-- A concrete quote: ask 150.125, bid 150.10, sizes 3 and 5. -/
def quote0 : Quote :=
  { ask_price := mkRat 150125 1000, bid_price := mkRat 15010 100
    ask_size := 3, bid_size := 5, timestamp := "2026-10-10T15:59:00Z" }

/-- A world whose latest-quote call knows `AAPL` only. -/
def envQuote : Env :=
  { TradingClient := fun _ _ _ => .error "stub"
    StockHistoricalDataClient := fun _ _ =>
      .ok { dhStub with get_stock_latest_quote := fun _ => .ok [("AAPL", quote0)] }
    now := 0 }

/-- The chronologically earlier of two concrete bars. -/
def bar1 : Bar :=
  { timestamp := { date := "2026-10-06" }, «open» := mkRat 10050 100
    high := mkRat 10175 100, low := mkRat 9990 100, close := mkRat 10125 100
    volume := 1000 }

/-- The chronologically later of two concrete bars. -/
def bar2 : Bar :=
  { timestamp := { date := "2026-10-07" }, «open» := mkRat 10125 100
    high := mkRat 10300 100, low := mkRat 10100 100, close := mkRat 10250 100
    volume := 2000 }

/-- A world whose bar query returns `[bar2, bar1]` for `AAPL` — in the
order the backend chose, not in chronological order. -/
def envBars : Env :=
  { TradingClient := fun _ _ _ => .error "stub"
    StockHistoricalDataClient := fun _ _ =>
      .ok { dhStub with get_stock_bars := fun _ => .ok [("AAPL", [bar2, bar1])] }
    now := 0 }

/-- A world whose bar query returns an empty bar series for `AAPL`. -/
def envBarsEmpty : Env :=
  { TradingClient := fun _ _ _ => .error "stub"
    StockHistoricalDataClient := fun _ _ =>
      .ok { dhStub with get_stock_bars := fun _ => .ok [("AAPL", [])] }
    now := 0 }

/-! ## Helper lemmas -/

theorem digitChar_ne_dot (d : Nat) (h : d < 10) : (digitChar d != '.') = true := by
  interval_cases d <;> decide

theorem digitChar_isDigit (d : Nat) (h : d < 10) : (digitChar d).isDigit = true := by
  interval_cases d <;> decide

theorem fracAfterLastDot_shape (a : String) (c1 c2 : Char)
    (h1 : (c1 != '.') = true) (h2 : (c2 != '.') = true) :
    fracAfterLastDot (a ++ String.mk ('.' :: c1 :: [c2])) = [c2, c1] := by
  unfold fracAfterLastDot
  rw [String.data_append]
  show (a.data ++ ('.' :: c1 :: [c2])).reverse.takeWhile (fun c => c != '.') = [c2, c1]
  rw [List.reverse_append]
  show ([c2, c1, '.'] ++ a.data.reverse).takeWhile (fun c => c != '.') = [c2, c1]
  rw [List.cons_append, List.cons_append, List.cons_append]
  simp [List.takeWhile_cons, h1, h2]

theorem formatFixed2_fracAfterLastDot (q : ℚ) :
    ∃ c1 c2 : Char, fracAfterLastDot (formatFixed2 q) = [c2, c1]
      ∧ c1.isDigit = true ∧ c2.isDigit = true := by
  refine ⟨digitChar (((let N : ℤ := 100 * q.num
    let d : ℤ := (q.den : ℤ)
    let f : ℤ := N.fdiv d
    let r : ℤ := N - f * d
    if 2 * r < d then f else if d < 2 * r then f + 1
    else if f % 2 = 0 then f else f + 1).natAbs) % 100 / 10),
    digitChar (((let N : ℤ := 100 * q.num
    let d : ℤ := (q.den : ℤ)
    let f : ℤ := N.fdiv d
    let r : ℤ := N - f * d
    if 2 * r < d then f else if d < 2 * r then f + 1
    else if f % 2 = 0 then f else f + 1).natAbs) % 100 % 10), ?_, ?_, ?_⟩
  · exact fracAfterLastDot_shape _ _ _
      (digitChar_ne_dot _ (by omega)) (digitChar_ne_dot _ (by omega))
  · exact digitChar_isDigit _ (by omega)
  · exact digitChar_isDigit _ (by omega)

set_option maxRecDepth 8192 in
/-- C5: every monetary value and every percentage any operation renders is
produced by `formatFixed2`, which always emits exactly two fraction digits
(round half to even), regardless of the input's precision: for every
rational input the part after the last `'.'` is exactly two digit
characters; `100` renders as `100.00`, `12.3456` as `12.35`, and the
boundary case `0.005` as `0.00`; at operation level, a backend account
with buying power `100` and cash `12.3456` is rendered with
`Buying Power: $100.00` and `Cash: $12.35`. -/
theorem money_rendered_with_two_decimals :
    (∀ q : ℚ, (fracAfterLastDot (formatFixed2 q)).length = 2
      ∧ (fracAfterLastDot (formatFixed2 q)).all Char.isDigit = true)
    ∧ (12.3456 : ℚ) = mkRat 123456 10000
    ∧ formatFixed2 (mkRat 123456 10000) = "12.35"
    ∧ formatFixed2 (100 : ℚ) = "100.00"
    ∧ (0.005 : ℚ) = mkRat 5 1000
    ∧ formatFixed2 (mkRat 5 1000) = "0.00"
    ∧ (get_account_info g0 envAcct "key" "secret" true).1 =
        "\nAccount Information:\n-------------------\nAccount ID: acct-1\nStatus: ACTIVE\nCurrency: USD\nBuying Power: $100.00\nCash: $12.35\nPortfolio Value: $100.00\nEquity: $0.00\nLong Market Value: $0.00\nShort Market Value: $0.00\nPattern Day Trader: No\nDay Trades Remaining: 3\n" := by
  refine ⟨?_, by norm_num [Rat.mkRat_eq_div], by decide, by decide,
    by norm_num [Rat.mkRat_eq_div], by decide, by decide⟩
  intro q
  obtain ⟨c1, c2, he, h1, h2⟩ := formatFixed2_fracAfterLastDot q
  rw [he]
  exact ⟨rfl, by simp [List.all_cons, h1, h2]⟩

/-- C9: no operation reads the process-wide handles built at startup: for
any two values of the globals — in particular for startup globals built
from different default credentials — every operation returns the identical
result, and the first SDK interaction of every operation is always the
construction of a fresh handle from the credential arguments of that very
call. -/
theorem operations_independent_of_globals :
    (∀ (g g' : Globals) (env : Env) (api_key api_secret symbol side status : String)
        (paper cancel_orders : Bool) (quantity limit_price : ℚ) (limit days : ℤ),
      get_account_info g env api_key api_secret paper
          = get_account_info g' env api_key api_secret paper
      ∧ get_positions g env api_key api_secret paper
          = get_positions g' env api_key api_secret paper
      ∧ get_stock_quote g env symbol api_key api_secret
          = get_stock_quote g' env symbol api_key api_secret
      ∧ get_stock_bars g env symbol api_key api_secret days
          = get_stock_bars g' env symbol api_key api_secret days
      ∧ get_orders g env api_key api_secret paper status limit
          = get_orders g' env api_key api_secret paper status limit
      ∧ place_market_order g env symbol side quantity api_key api_secret paper
          = place_market_order g' env symbol side quantity api_key api_secret paper
      ∧ place_limit_order g env symbol side quantity limit_price api_key api_secret paper
          = place_limit_order g' env symbol side quantity limit_price api_key api_secret paper
      ∧ cancel_all_orders g env api_key api_secret paper
          = cancel_all_orders g' env api_key api_secret paper
      ∧ close_all_positions g env api_key api_secret paper cancel_orders
          = close_all_positions g' env api_key api_secret paper cancel_orders)
    ∧ (∀ (env : Env) (K1 S1 K2 S2 api_key api_secret : String) (P1 P2 paper : Bool),
      get_account_info (startupGlobals env K1 S1 P1) env api_key api_secret paper
        = get_account_info (startupGlobals env K2 S2 P2) env api_key api_secret paper)
    ∧ (∀ (g : Globals) (env : Env) (api_key api_secret symbol side status : String)
        (paper cancel_orders : Bool) (quantity limit_price : ℚ) (limit days : ℤ),
      (get_account_info g env api_key api_secret paper).2.head?
          = some (Call.constructTrading api_key api_secret paper)
      ∧ (get_positions g env api_key api_secret paper).2.head?
          = some (Call.constructTrading api_key api_secret paper)
      ∧ (get_stock_quote g env symbol api_key api_secret).2.head?
          = some (Call.constructData api_key api_secret)
      ∧ (get_stock_bars g env symbol api_key api_secret days).2.head?
          = some (Call.constructData api_key api_secret)
      ∧ (get_orders g env api_key api_secret paper status limit).2.head?
          = some (Call.constructTrading api_key api_secret paper)
      ∧ (place_market_order g env symbol side quantity api_key api_secret paper).2.head?
          = some (Call.constructTrading api_key api_secret paper)
      ∧ (place_limit_order g env symbol side quantity limit_price api_key api_secret paper).2.head?
          = some (Call.constructTrading api_key api_secret paper)
      ∧ (cancel_all_orders g env api_key api_secret paper).2.head?
          = some (Call.constructTrading api_key api_secret paper)
      ∧ (close_all_positions g env api_key api_secret paper cancel_orders).2.head?
          = some (Call.constructTrading api_key api_secret paper)) := by
  refine ⟨fun _ _ _ _ _ _ _ _ _ _ _ _ _ _ =>
      ⟨rfl, rfl, rfl, rfl, rfl, rfl, rfl, rfl, rfl⟩,
    fun _ _ _ _ _ _ _ _ _ _ => rfl, ?_⟩
  intro g env api_key api_secret symbol side status paper cancel_orders
    quantity limit_price limit days
  refine ⟨?_, ?_, ?_, ?_, ?_, ?_, ?_, ?_, ?_⟩
  · unfold get_account_info
    repeat' first | rfl | split | dsimp only
  · unfold get_positions
    repeat' first | rfl | split | dsimp only
  · unfold get_stock_quote
    repeat' first | rfl | split | dsimp only
  · unfold get_stock_bars
    repeat' first | rfl | split | dsimp only
  · unfold get_orders
    repeat' first | rfl | split | dsimp only
  · unfold place_market_order
    repeat' first | rfl | split | dsimp only
  · unfold place_limit_order
    repeat' first | rfl | split | dsimp only
  · unfold cancel_all_orders
    repeat' first | rfl | split | dsimp only
  · unfold close_all_positions
    repeat' first | rfl | split | dsimp only

/-- C1: for every operation in the dispatch table and every failure raised
inside the operation body — handle construction, the backend call, or
rendering (`float(order.limit_price)` on a missing limit price) — the
operation returns the string `"Error <operation description>: <failure
message>"`.  No exception propagates: in the embedding every operation is
a total function into `String × List Call`, and each failure case below
is shown to produce exactly the wrapped error string. -/
theorem error_normalizer_wraps_every_failure :
    (∀ (g : Globals) (env : Env) (api_key api_secret : String) (paper : Bool) (e : Err),
      env.TradingClient api_key api_secret paper = .error e →
      (get_account_info g env api_key api_secret paper).1 = "Error getting account info: " ++ e)
    ∧ (∀ (g : Globals) (env : Env) (api_key api_secret : String) (paper : Bool)
        (tc : TradingHandle) (e : Err),
      env.TradingClient api_key api_secret paper = .ok tc →
      tc.get_account = .error e →
      (get_account_info g env api_key api_secret paper).1 = "Error getting account info: " ++ e)
    ∧ (∀ (g : Globals) (env : Env) (api_key api_secret : String) (paper : Bool) (e : Err),
      env.TradingClient api_key api_secret paper = .error e →
      (get_positions g env api_key api_secret paper).1 = "Error getting positions: " ++ e)
    ∧ (∀ (g : Globals) (env : Env) (api_key api_secret : String) (paper : Bool)
        (tc : TradingHandle) (e : Err),
      env.TradingClient api_key api_secret paper = .ok tc →
      tc.get_all_positions = .error e →
      (get_positions g env api_key api_secret paper).1 = "Error getting positions: " ++ e)
    ∧ (∀ (g : Globals) (env : Env) (symbol api_key api_secret : String) (e : Err),
      env.StockHistoricalDataClient api_key api_secret = .error e →
      (get_stock_quote g env symbol api_key api_secret).1 =
        "Error fetching quote for " ++ symbol ++ ": " ++ e)
    ∧ (∀ (g : Globals) (env : Env) (symbol api_key api_secret : String)
        (dh : DataHandle) (e : Err),
      env.StockHistoricalDataClient api_key api_secret = .ok dh →
      (∀ req, dh.get_stock_latest_quote req = .error e) →
      (get_stock_quote g env symbol api_key api_secret).1 =
        "Error fetching quote for " ++ symbol ++ ": " ++ e)
    ∧ (∀ (g : Globals) (env : Env) (symbol api_key api_secret : String) (days : ℤ) (e : Err),
      env.StockHistoricalDataClient api_key api_secret = .error e →
      (get_stock_bars g env symbol api_key api_secret days).1 =
        "Error fetching historical data for " ++ symbol ++ ": " ++ e)
    ∧ (∀ (g : Globals) (env : Env) (symbol api_key api_secret : String) (days : ℤ)
        (dh : DataHandle) (e : Err),
      env.StockHistoricalDataClient api_key api_secret = .ok dh →
      (∀ req, dh.get_stock_bars req = .error e) →
      (get_stock_bars g env symbol api_key api_secret days).1 =
        "Error fetching historical data for " ++ symbol ++ ": " ++ e)
    ∧ (∀ (g : Globals) (env : Env) (api_key api_secret status : String) (paper : Bool)
        (limit : ℤ) (e : Err),
      env.TradingClient api_key api_secret paper = .error e →
      (get_orders g env api_key api_secret paper status limit).1 =
        "Error fetching orders: " ++ e)
    ∧ (∀ (g : Globals) (env : Env) (api_key api_secret status : String) (paper : Bool)
        (limit : ℤ) (tc : TradingHandle) (e : Err),
      env.TradingClient api_key api_secret paper = .ok tc →
      (∀ req, tc.get_orders req = .error e) →
      (get_orders g env api_key api_secret paper status limit).1 =
        "Error fetching orders: " ++ e)
    ∧ (∀ (g : Globals) (env : Env) (symbol side api_key api_secret : String)
        (quantity : ℚ) (paper : Bool) (e : Err),
      env.TradingClient api_key api_secret paper = .error e →
      (place_market_order g env symbol side quantity api_key api_secret paper).1 =
        "Error placing market order: " ++ e)
    ∧ (∀ (g : Globals) (env : Env) (symbol side api_key api_secret : String)
        (quantity : ℚ) (paper : Bool) (tc : TradingHandle) (e : Err),
      env.TradingClient api_key api_secret paper = .ok tc →
      (pyLower side = "buy" ∨ pyLower side = "sell") →
      (∀ req, tc.submit_order req = .error e) →
      (place_market_order g env symbol side quantity api_key api_secret paper).1 =
        "Error placing market order: " ++ e)
    ∧ (∀ (g : Globals) (env : Env) (symbol side api_key api_secret : String)
        (quantity limit_price : ℚ) (paper : Bool) (e : Err),
      env.TradingClient api_key api_secret paper = .error e →
      (place_limit_order g env symbol side quantity limit_price api_key api_secret paper).1 =
        "Error placing limit order: " ++ e)
    ∧ (∀ (g : Globals) (env : Env) (symbol side api_key api_secret : String)
        (quantity limit_price : ℚ) (paper : Bool) (tc : TradingHandle) (e : Err),
      env.TradingClient api_key api_secret paper = .ok tc →
      (pyLower side = "buy" ∨ pyLower side = "sell") →
      (∀ req, tc.submit_order req = .error e) →
      (place_limit_order g env symbol side quantity limit_price api_key api_secret paper).1 =
        "Error placing limit order: " ++ e)
    ∧ (∀ (g : Globals) (env : Env) (symbol side api_key api_secret : String)
        (quantity limit_price : ℚ) (paper : Bool) (tc : TradingHandle) (order : Order),
      env.TradingClient api_key api_secret paper = .ok tc →
      (pyLower side = "buy" ∨ pyLower side = "sell") →
      (∀ req, tc.submit_order req = .ok order) →
      order.limit_price = none →
      (place_limit_order g env symbol side quantity limit_price api_key api_secret paper).1 =
        "Error placing limit order: " ++
          "float() argument must be a string or a real number, not 'NoneType'")
    ∧ (∀ (g : Globals) (env : Env) (api_key api_secret : String) (paper : Bool) (e : Err),
      env.TradingClient api_key api_secret paper = .error e →
      (cancel_all_orders g env api_key api_secret paper).1 = "Error canceling orders: " ++ e)
    ∧ (∀ (g : Globals) (env : Env) (api_key api_secret : String) (paper : Bool)
        (tc : TradingHandle) (e : Err),
      env.TradingClient api_key api_secret paper = .ok tc →
      tc.cancel_orders = .error e →
      (cancel_all_orders g env api_key api_secret paper).1 = "Error canceling orders: " ++ e)
    ∧ (∀ (g : Globals) (env : Env) (api_key api_secret : String) (paper cancel_orders : Bool)
        (e : Err),
      env.TradingClient api_key api_secret paper = .error e →
      (close_all_positions g env api_key api_secret paper cancel_orders).1 =
        "Error closing positions: " ++ e)
    ∧ (∀ (g : Globals) (env : Env) (api_key api_secret : String) (paper cancel_orders : Bool)
        (tc : TradingHandle) (e : Err),
      env.TradingClient api_key api_secret paper = .ok tc →
      tc.close_all_positions cancel_orders = .error e →
      (close_all_positions g env api_key api_secret paper cancel_orders).1 =
        "Error closing positions: " ++ e) := by
  refine ⟨?_, ?_, ?_, ?_, ?_, ?_, ?_, ?_, ?_, ?_, ?_, ?_, ?_, ?_, ?_, ?_, ?_, ?_, ?_⟩
  · intro g env k s p e h
    simp [get_account_info, h]
  · intro g env k s p tc e h h2
    simp [get_account_info, h, h2]
  · intro g env k s p e h
    simp [get_positions, h]
  · intro g env k s p tc e h h2
    simp [get_positions, h, h2]
  · intro g env sym k s e h
    simp [get_stock_quote, h]
  · intro g env sym k s dh e h h2
    simp [get_stock_quote, h, h2]
  · intro g env sym k s d e h
    simp [get_stock_bars, h]
  · intro g env sym k s d dh e h h2
    simp [get_stock_bars, h, h2]
  · intro g env k s st p l e h
    simp [get_orders, h]
  · intro g env k s st p l tc e h h2
    simp [get_orders, h, h2]
  · intro g env sym side k s qty p e h
    simp [place_market_order, h]
  · intro g env sym side k s qty p tc e h hside h2
    rcases hside with hs | hs <;> simp [place_market_order, h, hs, h2]
  · intro g env sym side k s qty lp p e h
    simp [place_limit_order, h]
  · intro g env sym side k s qty lp p tc e h hside h2
    rcases hside with hs | hs <;> simp [place_limit_order, h, hs, h2]
  · intro g env sym side k s qty lp p tc order h hside h2 h3
    rcases hside with hs | hs <;>
      simp [place_limit_order, h, hs, h2, renderLimitOrderBlock, h3]
  · intro g env k s p e h
    simp [cancel_all_orders, h]
  · intro g env k s p tc e h h2
    simp [cancel_all_orders, h, h2]
  · intro g env k s p co e h
    simp [close_all_positions, h]
  · intro g env k s p co tc e h h2
    simp [close_all_positions, h, h2]

/-- Witness for C1: concrete failing worlds, one per failure kind —
construction failure, backend-call failure, rendering failure. -/
theorem error_normalizer_wraps_every_failure_witness :
    (get_account_info g0 envFail "k" "s" true).1 = "Error getting account info: " ++ "boom"
    ∧ (place_market_order g0 envPosEmpty "AAPL" "buy" 1 "k" "s" true).1 =
        "Error placing market order: " ++ "stub"
    ∧ (place_limit_order g0 envLimitNone "AAPL" "sell" 1 1 "k" "s" true).1 =
        "Error placing limit order: " ++
          "float() argument must be a string or a real number, not 'NoneType'" :=
  ⟨error_normalizer_wraps_every_failure.1 g0 envFail "k" "s" true "boom" rfl,
   error_normalizer_wraps_every_failure.2.2.2.2.2.2.2.2.2.2.2.1
     g0 envPosEmpty "AAPL" "buy" "k" "s" 1 true _ "stub" rfl (Or.inl (by decide))
     (fun _ => rfl),
   error_normalizer_wraps_every_failure.2.2.2.2.2.2.2.2.2.2.2.2.2.2.1
     g0 envLimitNone "AAPL" "sell" "k" "s" 1 1 true _ orderNoLimit rfl
     (Or.inr (by decide)) (fun _ => rfl) rfl⟩

/-- If `t` occurs inside `s` then `t` is at most as long as `s`. -/
theorem containsStr_length_le (s t : String) (h : ContainsStr s t) :
    t.data.length ≤ s.data.length := by
  obtain ⟨a, b, rfl⟩ := h
  simp only [String.data_append, List.length_append]
  omega

/-- A rendered position block is always longer than 24 characters (its
fixed labels alone are 126 characters). -/
theorem renderPosition_long (p : Position) : 24 < (renderPosition p).data.length := by
  have e1 : "\nSymbol: ".data.length = 9 := by decide
  have e2 : "\nQuantity: ".data.length = 11 := by decide
  have e3 : " shares".data.length = 7 := by decide
  have e4 : "\nMarket Value: $".data.length = 16 := by decide
  have e5 : "\nAverage Entry Price: $".data.length = 23 := by decide
  have e6 : "\nCurrent Price: $".data.length = 17 := by decide
  have e7 : "\nUnrealized P/L: $".data.length = 18 := by decide
  have e8 : " (".data.length = 2 := by decide
  have e9 : "%)".data.length = 2 := by decide
  have e10 : "\n-------------------\n".data.length = 21 := by decide
  simp only [renderPosition, String.data_append, List.length_append,
    e1, e2, e3, e4, e5, e6, e7, e8, e9, e10]
  omega

/-- C2 counterexample: the source constructs the trading client (line 255)
before validating `side` (lines 257-262), and construction raises on empty
credentials in the real SDK, so for that credential input the call returns
the wrapped construction error, not the invalid-side message — the claim
does not hold for every credential input. -/
theorem invalid_side_message_preempted_by_construction_failure :
    (place_market_order g0 envNoAuth "AAPL" "hold" 1 "" "" true).1 ≠
      "Invalid order side: hold. Must be 'buy' or 'sell'."
    ∧ (place_market_order g0 envNoAuth "AAPL" "hold" 1 "" "" true).1 =
      "Error placing market order: You must supply a method of authentication" := by
  constructor <;> decide

/-- C2 amended: for every credential input for which the per-call handle
construction succeeds, `place_market_order` with a side whose lowercase
form is neither `buy` nor `sell` returns exactly the literal
`"Invalid order side: <side>. Must be 'buy' or 'sell'."`, and its trace
holds the handle construction only — no backend call is performed, for
any backend behavior whatsoever. -/
theorem invalid_side_literal_and_no_backend_call :
    ∀ (g : Globals) (env : Env) (symbol side api_key api_secret : String)
      (quantity : ℚ) (paper : Bool) (tc : TradingHandle),
      env.TradingClient api_key api_secret paper = .ok tc →
      pyLower side ≠ "buy" → pyLower side ≠ "sell" →
      place_market_order g env symbol side quantity api_key api_secret paper =
        ("Invalid order side: " ++ side ++ ". Must be 'buy' or 'sell'.",
         [Call.constructTrading api_key api_secret paper]) := by
  intro g env sym side k s qty p tc h h1 h2
  simp [place_market_order, h, h1, h2]

/-- Witness for the amended C2: side `"hold"` against a backend that would
happily accept any submitted order — yet only construction appears in the
trace and the invalid-side literal is returned. -/
theorem invalid_side_literal_and_no_backend_call_witness :
    place_market_order g0 envSubmitOk "AAPL" "hold" 1 "k" "s" true =
      ("Invalid order side: hold. Must be 'buy' or 'sell'.",
       [Call.constructTrading "k" "s" true]) :=
  invalid_side_literal_and_no_backend_call g0 envSubmitOk "AAPL" "hold" "k" "s" 1 true _
    rfl (by decide) (by decide)

/-- C3: when the backend's list-positions call returns the empty list,
`get_positions` returns exactly `"No open positions found."` (the trace
shows only construction and the one backend call), and no rendered
position block can occur in that output — the per-position rendering
path is not invoked. -/
theorem get_positions_empty_fixed_sentence :
    ∀ (g : Globals) (env : Env) (api_key api_secret : String) (paper : Bool)
      (tc : TradingHandle),
      env.TradingClient api_key api_secret paper = .ok tc →
      tc.get_all_positions = .ok [] →
      get_positions g env api_key api_secret paper =
        ("No open positions found.",
         [Call.constructTrading api_key api_secret paper, Call.getAllPositions])
      ∧ ∀ p : Position,
          ¬ ContainsStr (get_positions g env api_key api_secret paper).1 (renderPosition p) := by
  intro g env k s p tc h h2
  have hmain : get_positions g env k s p =
      ("No open positions found.",
       [Call.constructTrading k s p, Call.getAllPositions]) := by
    simp [get_positions, h, h2]
  refine ⟨hmain, ?_⟩
  intro pos hc
  rw [hmain] at hc
  replace hc : ContainsStr "No open positions found." (renderPosition pos) := hc
  have hlen := containsStr_length_le _ _ hc
  have hlong := renderPosition_long pos
  have hfixed : "No open positions found.".data.length = 24 := by decide
  omega

/-- Witness for C3: a concrete world with an empty position list. -/
theorem get_positions_empty_fixed_sentence_witness :
    get_positions g0 envPosEmpty "k" "s" true =
      ("No open positions found.",
       [Call.constructTrading "k" "s" true, Call.getAllPositions]) :=
  (get_positions_empty_fixed_sentence g0 envPosEmpty "k" "s" true _ rfl rfl).1

/-- C4: `get_orders` maps its `status` argument case-insensitively —
`"open"` to the open filter, `"closed"` to the closed filter, anything
else to the all filter — passing `limit` to the backend unmodified (the
trace shows the exact request), and when the backend raises, the returned
string is `"Error fetching orders: "` followed by the failure message. -/
theorem get_orders_status_mapping_and_error_shape :
    ∀ (g : Globals) (env : Env) (api_key api_secret status : String) (paper : Bool)
      (limit : ℤ) (tc : TradingHandle),
      env.TradingClient api_key api_secret paper = .ok tc →
      ((pyLower status = "open" →
        (get_orders g env api_key api_secret paper status limit).2 =
          [Call.constructTrading api_key api_secret paper,
           Call.getOrdersCall { status := QueryOrderStatus.OPEN, limit := limit }])
      ∧ (pyLower status = "closed" →
        (get_orders g env api_key api_secret paper status limit).2 =
          [Call.constructTrading api_key api_secret paper,
           Call.getOrdersCall { status := QueryOrderStatus.CLOSED, limit := limit }])
      ∧ (pyLower status ≠ "open" → pyLower status ≠ "closed" →
        (get_orders g env api_key api_secret paper status limit).2 =
          [Call.constructTrading api_key api_secret paper,
           Call.getOrdersCall { status := QueryOrderStatus.ALL, limit := limit }])
      ∧ (∀ e : Err, (∀ req, tc.get_orders req = .error e) →
        (get_orders g env api_key api_secret paper status limit).1 =
          "Error fetching orders: " ++ e)) := by
  intro g env k s st p l tc h
  refine ⟨?_, ?_, ?_, ?_⟩
  · intro hs
    simp only [get_orders, h, hs]
    repeat' first | rfl | split | dsimp only
  · intro hs
    have hs' : pyLower st ≠ "open" := by rw [hs]; decide
    simp only [get_orders, h, hs, if_neg hs', if_pos rfl]
    repeat' first | rfl | split | dsimp only
  · intro h1 h2
    simp only [get_orders, h, if_neg h1, if_neg h2]
    repeat' first | rfl | split | dsimp only
  · intro e he
    simp [get_orders, h, he]

/-- Witness for C4: `status="CLOSED"` (upper case) with `limit=3` against
a backend whose order listing raises a rate-limit error. -/
theorem get_orders_status_mapping_witness :
    (get_orders g0 envOrdersErr "k" "s" true "CLOSED" 3).2 =
      [Call.constructTrading "k" "s" true,
       Call.getOrdersCall { status := QueryOrderStatus.CLOSED, limit := 3 }]
    ∧ (get_orders g0 envOrdersErr "k" "s" true "CLOSED" 3).1 =
      "Error fetching orders: " ++ "rate limit" :=
  ⟨(get_orders_status_mapping_and_error_shape g0 envOrdersErr "k" "s" "CLOSED" true 3 _
      rfl).2.1 (by decide),
   (get_orders_status_mapping_and_error_shape g0 envOrdersErr "k" "s" "CLOSED" true 3 _
      rfl).2.2.2 "rate limit" (fun _ => rfl)⟩

theorem str_append_empty (s : String) : s ++ "" = s := by
  apply String.ext
  rw [String.data_append]
  have h : "".data = [] := rfl
  rw [h]
  exact List.append_nil s.data

/-- The account block always contains the `Day Trades Remaining` line;
with an `Unknown` field value the full line is a contiguous substring. -/
theorem contains_dtr_unknown (A : String) :
    ContainsStr ((A ++ "\nDay Trades Remaining: ") ++ "Unknown" ++ "\n")
      "Day Trades Remaining: Unknown\n" := by
  refine ⟨A ++ "\n", "", ?_⟩
  rw [str_append_empty]
  apply String.ext
  simp only [String.data_append, List.append_assoc]
  congr 1 <;> decide

/-- C6 counterexample: the source contains no positivity check on
`quantity`; with quantity `0` — which is not strictly positive — the
backend's submit-order call receives exactly that quantity, so an order
with a non-positive quantity is passed to the backend. -/
theorem nonpositive_quantity_reaches_backend :
    (place_market_order g0 envSubmitOk "AAPL" "buy" 0 "k" "s" true).2 =
      [Call.constructTrading "k" "s" true,
       Call.submitOrder (OrderRequest.market
         { symbol := "AAPL", qty := 0, side := OrderSide.BUY,
           time_in_force := TimeInForce.DAY })]
    ∧ ¬ (0 : ℚ) > 0 := by
  constructor
  · decide
  · norm_num

/-- C6 amended: both order operations forward the `quantity` argument to
the backend's submit-order call completely unmodified and unvalidated —
whatever its sign — whenever the side is valid and construction
succeeds. -/
theorem quantity_forwarded_unmodified :
    ∀ (g : Globals) (env : Env) (symbol side api_key api_secret : String)
      (quantity limit_price : ℚ) (paper : Bool) (tc : TradingHandle),
      env.TradingClient api_key api_secret paper = .ok tc →
      ((pyLower side = "buy" →
        (place_market_order g env symbol side quantity api_key api_secret paper).2 =
          [Call.constructTrading api_key api_secret paper,
           Call.submitOrder (OrderRequest.market
             { symbol := symbol, qty := quantity, side := OrderSide.BUY,
               time_in_force := TimeInForce.DAY })])
      ∧ (pyLower side = "sell" →
        (place_limit_order g env symbol side quantity limit_price api_key api_secret paper).2 =
          [Call.constructTrading api_key api_secret paper,
           Call.submitOrder (OrderRequest.limit
             { symbol := symbol, qty := quantity, side := OrderSide.SELL,
               time_in_force := TimeInForce.DAY, limit_price := limit_price })])) := by
  intro g env sym side k s qty lp p tc h
  constructor
  · intro hs
    simp only [place_market_order, h, hs, if_true]
    repeat' first | rfl | split | dsimp only
  · intro hs
    simp only [place_limit_order, h, hs, String.reduceEq, reduceIte]
    repeat' first | rfl | split | dsimp only

/-- Witness for the amended C6: quantity `0` for a market order and
quantity `-1` for a limit order both reach the backend unmodified. -/
theorem quantity_forwarded_unmodified_witness :
    (place_market_order g0 envSubmitOk "MSFT" "buy" 0 "k" "s" true).2 =
      [Call.constructTrading "k" "s" true,
       Call.submitOrder (OrderRequest.market
         { symbol := "MSFT", qty := 0, side := OrderSide.BUY,
           time_in_force := TimeInForce.DAY })]
    ∧ (place_limit_order g0 envSubmitOk "MSFT" "sell" (-1) 7 "k" "s" true).2 =
      [Call.constructTrading "k" "s" true,
       Call.submitOrder (OrderRequest.limit
         { symbol := "MSFT", qty := -1, side := OrderSide.SELL,
           time_in_force := TimeInForce.DAY, limit_price := 7 })] :=
  ⟨(quantity_forwarded_unmodified g0 envSubmitOk "MSFT" "buy" "k" "s" 0 7 true _ rfl).1
     (by decide),
   (quantity_forwarded_unmodified g0 envSubmitOk "MSFT" "sell" "k" "s" (-1) 7 true _ rfl).2
     (by decide)⟩

/-- C7: when the latest-quote result contains the symbol, `get_stock_quote`
renders the quote block with ask/bid formatted to two decimals (ask
`150.125` yields `Ask Price: $150.12` under round-half-to-even, bid
`150.10` yields `Bid Price: $150.10`); when the symbol is absent from the
result it returns exactly `"No quote data found for <symbol>."`. -/
theorem get_stock_quote_render_or_missing :
    (∀ (g : Globals) (env : Env) (symbol api_key api_secret : String)
        (dh : DataHandle) (quotes : List (String × Quote)) (q : Quote),
      env.StockHistoricalDataClient api_key api_secret = .ok dh →
      dh.get_stock_latest_quote { symbol_or_symbols := symbol } = .ok quotes →
      quotes.lookup symbol = some q →
      (get_stock_quote g env symbol api_key api_secret).1 = renderQuoteBlock symbol q)
    ∧ (∀ (g : Globals) (env : Env) (symbol api_key api_secret : String)
        (dh : DataHandle) (quotes : List (String × Quote)),
      env.StockHistoricalDataClient api_key api_secret = .ok dh →
      dh.get_stock_latest_quote { symbol_or_symbols := symbol } = .ok quotes →
      quotes.lookup symbol = none →
      (get_stock_quote g env symbol api_key api_secret).1 =
        "No quote data found for " ++ symbol ++ ".")
    ∧ (get_stock_quote g0 envQuote "AAPL" "k" "s").1 =
        "\nLatest Quote for AAPL:\n------------------------\nAsk Price: $150.12\nBid Price: $150.10\nAsk Size: 3\nBid Size: 5\nTimestamp: 2026-10-10T15:59:00Z\n"
    ∧ ContainsStr (get_stock_quote g0 envQuote "AAPL" "k" "s").1 "Ask Price: $150.12"
    ∧ ContainsStr (get_stock_quote g0 envQuote "AAPL" "k" "s").1 "Bid Price: $150.10"
    ∧ (get_stock_quote g0 envQuote "MSFT" "k" "s").1 = "No quote data found for MSFT." := by
  refine ⟨?_, ?_, by decide, ?_, ?_, by decide⟩
  · intro g env sym k s dh quotes q h h2 h3
    simp [get_stock_quote, h, h2, h3]
  · intro g env sym k s dh quotes h h2 h3
    simp [get_stock_quote, h, h2, h3]
  · exact ⟨"\nLatest Quote for AAPL:\n------------------------\n",
      "\nBid Price: $150.10\nAsk Size: 3\nBid Size: 5\nTimestamp: 2026-10-10T15:59:00Z\n",
      by decide⟩
  · exact ⟨"\nLatest Quote for AAPL:\n------------------------\nAsk Price: $150.12\n",
      "\nAsk Size: 3\nBid Size: 5\nTimestamp: 2026-10-10T15:59:00Z\n",
      by decide⟩

/-- Witness for C7: the concrete quote world, with the symbol present and
absent. -/
theorem get_stock_quote_render_or_missing_witness :
    (get_stock_quote g0 envQuote "AAPL" "k" "s").1 = renderQuoteBlock "AAPL" quote0
    ∧ (get_stock_quote g0 envQuote "MSFT" "k" "s").1 = "No quote data found for MSFT." :=
  ⟨get_stock_quote_render_or_missing.1 g0 envQuote "AAPL" "k" "s" _ _ quote0 rfl rfl rfl,
   get_stock_quote_render_or_missing.2.1 g0 envQuote "MSFT" "k" "s" _ _ rfl rfl rfl⟩

set_option maxRecDepth 8192 in
/-- C8: `get_stock_bars` defaults `days` to 5; for every call that
constructs its data handle it sends the backend exactly one bar request
for the symbol with daily granularity, `start = now - days`, and no
explicit end (the SDK default, meaning "up to now"); when the symbol is
absent from the result or its bar series is empty it returns the fixed
"no historical data" sentence; otherwise it renders the bars by folding
over the backend's list in the order returned — no re-sorting — as the
concrete world with out-of-order bars `[bar2, bar1]` shows. -/
theorem get_stock_bars_range_and_rendering :
    (∀ (g : Globals) (env : Env) (symbol api_key api_secret : String),
      get_stock_bars g env symbol api_key api_secret =
        get_stock_bars g env symbol api_key api_secret 5)
    ∧ (∀ (g : Globals) (env : Env) (symbol api_key api_secret : String) (days : ℤ)
        (dh : DataHandle),
      env.StockHistoricalDataClient api_key api_secret = .ok dh →
      (get_stock_bars g env symbol api_key api_secret days).2 =
        [Call.constructData api_key api_secret,
         Call.getStockBars { symbol_or_symbols := symbol
                             timeframe := TimeFrame.Day
                             start := env.now - (days : ℚ)
                             «end» := none }])
    ∧ (∀ (g : Globals) (env : Env) (symbol api_key api_secret : String) (days : ℤ)
        (dh : DataHandle) (res : List (String × List Bar)),
      env.StockHistoricalDataClient api_key api_secret = .ok dh →
      (∀ req, dh.get_stock_bars req = .ok res) →
      (res.lookup symbol = none ∨ res.lookup symbol = some []) →
      (get_stock_bars g env symbol api_key api_secret days).1 =
        "No historical data found for " ++ symbol ++ " in the last " ++
          toString days ++ " days.")
    ∧ (∀ (g : Globals) (env : Env) (symbol api_key api_secret : String) (days : ℤ)
        (dh : DataHandle) (res : List (String × List Bar)) (b : Bar) (bs : List Bar),
      env.StockHistoricalDataClient api_key api_secret = .ok dh →
      (∀ req, dh.get_stock_bars req = .ok res) →
      res.lookup symbol = some (b :: bs) →
      (get_stock_bars g env symbol api_key api_secret days).1 =
        (b :: bs).foldl (fun acc bar => acc ++ renderBarLine bar) (barsHeader symbol days))
    ∧ (get_stock_bars g0 envBars "AAPL" "k" "s" 5).1 =
        barsHeader "AAPL" 5 ++ renderBarLine bar2 ++ renderBarLine bar1
    ∧ (get_stock_bars g0 envBarsEmpty "AAPL" "k" "s" 5).1 =
        "No historical data found for AAPL in the last 5 days."
    ∧ (get_stock_bars g0 envBarsEmpty "MSFT" "k" "s" 5).1 =
        "No historical data found for MSFT in the last 5 days." := by
  refine ⟨fun _ _ _ _ _ => rfl, ?_, ?_, ?_, by decide, by decide, by decide⟩
  · intro g env sym k s d dh h
    simp only [get_stock_bars, h]
    repeat' first | rfl | split | dsimp only
  · intro g env sym k s d dh res h hcall hlookup
    rcases hlookup with hl | hl <;> simp [get_stock_bars, h, hcall, hl]
  · intro g env sym k s d dh res b bs h hcall hl
    simp [get_stock_bars, h, hcall, hl]

/-- Witness for C8: the concrete bar worlds — the out-of-order pair, the
exact request, and the empty series. -/
theorem get_stock_bars_range_and_rendering_witness :
    (get_stock_bars g0 envBars "AAPL" "k" "s" 5).2 =
      [Call.constructData "k" "s",
       Call.getStockBars { symbol_or_symbols := "AAPL"
                           timeframe := TimeFrame.Day
                           start := envBars.now - ((5 : ℤ) : ℚ)
                           «end» := none }]
    ∧ (get_stock_bars g0 envBars "AAPL" "k" "s" 5).1 =
      [bar2, bar1].foldl (fun acc bar => acc ++ renderBarLine bar) (barsHeader "AAPL" 5)
    ∧ (get_stock_bars g0 envBarsEmpty "AAPL" "k" "s" 5).1 =
      "No historical data found for AAPL in the last " ++ toString (5 : ℤ) ++ " days." :=
  ⟨get_stock_bars_range_and_rendering.2.1 g0 envBars "AAPL" "k" "s" 5 _ rfl,
   get_stock_bars_range_and_rendering.2.2.2.1 g0 envBars "AAPL" "k" "s" 5 _ _ bar2 [bar1]
     rfl (fun _ => rfl) rfl,
   get_stock_bars_range_and_rendering.2.2.1 g0 envBarsEmpty "AAPL" "k" "s" 5 _ _
     rfl (fun _ => rfl) (Or.inr rfl)⟩

/-- C10: when the backend's account object has no `daytrade_count`
attribute, `get_account_info` still succeeds on the normal rendering path
(it does not fall into the error branch), the `Day Trades Remaining`
field renders the literal `Unknown`, and the full line
`Day Trades Remaining: Unknown` occurs in the output. -/
theorem get_account_info_missing_daytrade_count :
    ∀ (g : Globals) (env : Env) (api_key api_secret : String) (paper : Bool)
      (tc : TradingHandle) (account : Account),
      env.TradingClient api_key api_secret paper = .ok tc →
      tc.get_account = .ok account →
      account.daytrade_count = none →
      (get_account_info g env api_key api_secret paper).1 = renderAccountInfo account
      ∧ dayTradesField account = "Unknown"
      ∧ ContainsStr (get_account_info g env api_key api_secret paper).1
          "Day Trades Remaining: Unknown\n" := by
  intro g env k s p tc account h h2 h3
  have hmain : (get_account_info g env k s p).1 = renderAccountInfo account := by
    simp [get_account_info, h, h2]
  have hday : dayTradesField account = "Unknown" := by
    simp [dayTradesField, h3]
  refine ⟨hmain, hday, ?_⟩
  rw [hmain]
  unfold renderAccountInfo
  rw [hday]
  exact contains_dtr_unknown _

/-- Witness for C10: the concrete account with the attribute missing. -/
theorem get_account_info_missing_daytrade_count_witness :
    (get_account_info g0 envAcctNoDtc "k" "s" true).1 = renderAccountInfo acctNoDtc
    ∧ ContainsStr (get_account_info g0 envAcctNoDtc "k" "s" true).1
        "Day Trades Remaining: Unknown\n" :=
  ⟨(get_account_info_missing_daytrade_count g0 envAcctNoDtc "k" "s" true _ acctNoDtc
      rfl rfl rfl).1,
   (get_account_info_missing_daytrade_count g0 envAcctNoDtc "k" "s" true _ acctNoDtc
      rfl rfl rfl).2.2⟩
